import Mathlib

/-!
Verification of the WattWise meter-simulator core against its
natural-language specification.

The definitions below are a shallow embedding of
`simulator/meter_simulator.js` (class `PowerConsumptionSimulator`) and
`simulator/config.js`.  JavaScript numbers are idealised as exact
rationals, JavaScript `Date` values as epoch milliseconds (an integer)
with explicit calendar accessors, and `Math.random()` as an explicitly
supplied stream of rationals `r : Nat → ℚ` together with a cursor index
that each draw advances.  Components of the design that are described in
the specification but have no implementation in the repository (the
Interactive State Store / Real-Time Power State merge and the Forecast
Comparator) are modelled from the specification text and are marked as
such in their doc comments.
-/

/-! ## Numeric preliminaries -/

/-- Embedding of the JavaScript idiom `parseFloat(x.toFixed(digits))`:
round to `digits` decimal places (half away from zero on the
non-negative values produced by the simulator, which coincides with
rounding half up). -/
def toFixed (digits : ℕ) (q : ℚ) : ℚ :=
  (round (q * 10 ^ digits) : ℚ) / 10 ^ digits

/-! ## Calendar model

A JavaScript `Date` is observed by the simulator only through
`getTime`, `getMinutes`, `getHours`, `getDay` and `getMonth`.  We model
a date as its epoch value in milliseconds and implement the accessors
with exact floor-division calendar arithmetic (the civil-from-days
algorithm for the month). -/

/-- Minutes component of an epoch-millisecond timestamp,
as returned by `Date.prototype.getMinutes`. -/
def minutesOf (t : ℤ) : ℕ :=
  ((t.fdiv 60000) % 60).toNat

/-- Hours component, as returned by `Date.prototype.getHours`. -/
def hoursOf (t : ℤ) : ℕ :=
  ((t.fdiv 3600000) % 24).toNat

/-- Day of week (0 = Sunday … 6 = Saturday), as returned by
`Date.prototype.getDay`; epoch day 0 (1970-01-01) was a Thursday. -/
def dayOfWeekOf (t : ℤ) : ℕ :=
  ((t.fdiv 86400000 + 4) % 7).toNat

/-- Zero-based calendar month (0 = January … 11 = December), as
returned by `Date.prototype.getMonth`, via the standard civil-from-days
algorithm on the epoch day number. -/
def monthOf (t : ℤ) : ℕ :=
  let z := t.fdiv 86400000 + 719468
  let era := z.fdiv 146097
  let doe := z - era * 146097
  let yoe := (doe - doe.fdiv 1460 + doe.fdiv 36524 - doe.fdiv 146096).fdiv 365
  let doy := doe - (365 * yoe + yoe.fdiv 4 - yoe.fdiv 100)
  let mp := (5 * doy + 2).fdiv 153
  let m := if mp < 10 then mp + 3 else mp - 9
  (m - 1).toNat

/-! ## Configuration (`simulator/config.js`) -/

/-- One entry of a profile appliance table.  In the JavaScript object
the fields `alwaysOn`, `cycle`, `dutyCycle` and `probability` may be
absent; absence and the falsy values `false` / `0` are indistinguishable
to the simulator (it only tests truthiness), so the defaults below model
an absent field. -/
structure Appliance where
  power : ℚ
  alwaysOn : Bool := false
  cycle : ℕ := 0
  dutyCycle : ℚ := 0
  probability : ℚ := 0
  deriving DecidableEq

/-- A consumption profile: baseline watts plus an appliance table. -/
structure BaseConfig where
  baseline : ℚ
  appliances : List (String × Appliance)
  deriving DecidableEq

/-- The `normal` profile of `config.baseConsumption`. -/
def normalConfig : BaseConfig :=
  { baseline := 120
    appliances := [
      ("refrigerator", { power := 120, cycle := 30, dutyCycle := 7/10 }),
      ("led_lights", { power := 8, probability := 4/10 }),
      ("electronics_standby", { power := 20, probability := 6/10 }),
      ("wifi_router", { power := 6, alwaysOn := true }),
      ("fan", { power := 60, probability := 5/10 })] }

/-- The `high` profile of `config.baseConsumption`. -/
def highConfig : BaseConfig :=
  { baseline := 180
    appliances := [
      ("refrigerator", { power := 150, cycle := 25, dutyCycle := 8/10 }),
      ("led_lights", { power := 12, probability := 6/10 }),
      ("electronics_standby", { power := 35, probability := 8/10 }),
      ("wifi_router", { power := 8, alwaysOn := true }),
      ("fan", { power := 75, probability := 7/10 })] }

/-- The `low` profile of `config.baseConsumption`. -/
def lowConfig : BaseConfig :=
  { baseline := 80
    appliances := [
      ("refrigerator", { power := 100, cycle := 35, dutyCycle := 6/10 }),
      ("led_lights", { power := 6, probability := 2/10 }),
      ("electronics_standby", { power := 12, probability := 4/10 }),
      ("wifi_router", { power := 5, alwaysOn := true }),
      ("fan", { power := 50, probability := 3/10 })] }

/-- The `vacation` profile of `config.baseConsumption`. -/
def vacationConfig : BaseConfig :=
  { baseline := 40
    appliances := [
      ("refrigerator", { power := 120, cycle := 30, dutyCycle := 7/10 }),
      ("led_lights", { power := 0, probability := 0 }),
      ("electronics_standby", { power := 8, probability := 2/10 }),
      ("wifi_router", { power := 6, alwaysOn := true }),
      ("fan", { power := 0, probability := 0 })] }

/-- Profile lookup `config.baseConsumption[profile] || config.baseConsumption.normal`
performed by the `PowerConsumptionSimulator` constructor. -/
def baseConsumption (profile : String) : BaseConfig :=
  if profile = "normal" then normalConfig
  else if profile = "high" then highConfig
  else if profile = "low" then lowConfig
  else if profile = "vacation" then vacationConfig
  else normalConfig

/-- Hourly weekday multipliers, `config.timePatterns.weekday`. -/
def weekdayPattern : List ℚ :=
  [2/10, 15/100, 1/10, 5/100, 5/100, 1/10,
   4/10, 7/10, 8/10, 6/10, 5/10, 4/10,
   5/10, 6/10, 5/10, 4/10, 5/10, 7/10,
   9/10, 1, 9/10, 7/10, 5/10, 3/10]

/-- Hourly weekend multipliers, `config.timePatterns.weekend`. -/
def weekendPattern : List ℚ :=
  [2/10, 15/100, 1/10, 5/100, 5/100, 1/10,
   3/10, 4/10, 5/10, 6/10, 7/10, 8/10,
   9/10, 1, 9/10, 8/10, 9/10, 1,
   9/10, 8/10, 7/10, 6/10, 4/10, 3/10]

/-- One entry of `config.occasionalAppliances`:
power in watts, duration in minutes, per-tick start probability. -/
structure OccasionalAppliance where
  power : ℚ
  duration : ℕ
  probability : ℚ
  deriving DecidableEq

/-- The table `config.occasionalAppliances`. -/
def occasionalAppliances : List (String × OccasionalAppliance) :=
  [("microwave", ⟨1000, 5, 15/1000⟩),
   ("oven", ⟨2000, 30, 5/1000⟩),
   ("dishwasher", ⟨1500, 90, 2/1000⟩),
   ("washing_machine", ⟨400, 60, 1/100⟩),
   ("dryer", ⟨2500, 45, 1/1000⟩),
   ("air_conditioner", ⟨1200, 20, 2/100⟩),
   ("space_heater", ⟨1200, 30, 3/100⟩),
   ("water_heater", ⟨3000, 15, 2/100⟩),
   ("electric_vehicle", ⟨5000, 180, 1/1000⟩),
   ("water_pump", ⟨750, 10, 5/100⟩)]

/-- The four-season multiplier table `config.seasonalMultipliers`. -/
structure SeasonalMultipliers where
  spring : ℚ
  summer : ℚ
  monsoon : ℚ
  winter : ℚ
  deriving DecidableEq

/-- Values of `config.seasonalMultipliers`. -/
def seasonalMultipliers : SeasonalMultipliers :=
  { spring := 1, summer := 13/10, monsoon := 11/10, winter := 14/10 }

/-- `config.electrical.baseVoltage` (Nepal grid, 230 V). -/
def baseVoltage : ℚ := 230

/-- `config.electrical.voltageVariation`. -/
def voltageVariation : ℚ := 8/100

/-- `config.electrical.powerFactor`. -/
def powerFactor : ℚ := 92/100

/-- The JavaScript code derives the reactive-power coefficient as
`Math.tan(Math.acos(config.electrical.powerFactor))`, an irrational
number computed in floating point.  It is modelled here as a fixed
rational coefficient (its value is irrelevant to every claim); the
surrounding arithmetic is embedded exactly. -/
def tanAcosPowerFactor : ℚ := 4259177/10000000

/-- `config.anomalies.probability`. -/
def anomaliesProbability : ℚ := 15/10000

/-- One entry of `config.anomalies.types`: optional active-power
multiplier, optional voltage multiplier, duration in ticks. -/
structure AnomalySpec where
  multiplier : Option ℚ := none
  voltageMultiplier : Option ℚ := none
  duration : ℕ := 0
  deriving DecidableEq, Inhabited

/-- The table `config.anomalies.types`, in object-key order (the order
`Object.keys` enumerates for the pick). -/
def anomalyTypesList : List (String × AnomalySpec) :=
  [("powerSurge", { multiplier := some (25/10), duration := 2 }),
   ("brownout", { multiplier := some (3/10), duration := 3 }),
   ("voltageSpike", { voltageMultiplier := some (13/10), duration := 1 }),
   ("outage", { multiplier := some 0, duration := 5 }),
   ("voltageDip", { voltageMultiplier := some (7/10), duration := 2 })]

/-- `config.simulation.sampleInterval` in seconds. -/
def sampleInterval : ℕ := 60

/-! ## Simulator state (`PowerConsumptionSimulator` instance fields) -/

/-- A running occasional-appliance activation, one value of the
`this.activeAppliances` map: power in watts and the fixed end time
(epoch milliseconds) computed at start. -/
structure ActiveAppliance where
  power : ℚ
  endTime : ℤ
  deriving DecidableEq

/-- An anomaly object as stored in `this.anomaly`:
`{ ...config.anomalies.types[k], type: k }`. -/
structure AnomalyEvent where
  type : String
  multiplier : Option ℚ := none
  voltageMultiplier : Option ℚ := none
  duration : ℕ := 0
  deriving DecidableEq

/-- The mutable instance fields of `PowerConsumptionSimulator`.
`activeAppliances` is the insertion-ordered `Map` of running occasional
appliances, represented as an association list (inserts append). -/
structure SimState where
  userId : String
  profile : String
  baseConfig : BaseConfig
  energy_kwh : ℚ
  activeAppliances : List (String × ActiveAppliance)
  anomaly : Option AnomalyEvent
  anomalyRemaining : ℕ
  deriving DecidableEq

/-- The constructor `new PowerConsumptionSimulator(userId, profile)`. -/
def initialSimState (userId : String) (profile : String) : SimState :=
  { userId := userId
    profile := profile
    baseConfig := baseConsumption profile
    energy_kwh := 0
    activeAppliances := []
    anomaly := none
    anomalyRemaining := 0 }

/-! ## Simulator operations (`simulator/meter_simulator.js`) -/

/-- Method `getSeasonalMultiplier(date)`. -/
def getSeasonalMultiplier (t : ℤ) : ℚ :=
  let month := monthOf t
  if 1 ≤ month ∧ month ≤ 3 then seasonalMultipliers.spring
  else if 4 ≤ month ∧ month ≤ 6 then seasonalMultipliers.summer
  else if 7 ≤ month ∧ month ≤ 9 then seasonalMultipliers.monsoon
  else seasonalMultipliers.winter

/-- Method `getTimePatternMultiplier(date)`. -/
def getTimePatternMultiplier (t : ℤ) : ℚ :=
  let hour := hoursOf t
  let dayOfWeek := dayOfWeekOf t
  let isWeekend := dayOfWeek = 0 ∨ dayOfWeek = 6
  if isWeekend then weekendPattern.getD hour 0
  else weekdayPattern.getD hour 0

/-- The `forEach` accumulation of method `generateBaseLoad()`. -/
def baseAux : List (String × Appliance) → ℚ → ℚ
  | [], load => load
  | (_, a) :: rest, load =>
      baseAux rest (if a.alwaysOn then load + a.power else load)

/-- Method `generateBaseLoad()`: profile baseline plus all always-on
appliance powers. -/
def generateBaseLoad (cfg : BaseConfig) : ℚ :=
  baseAux cfg.appliances cfg.baseline

/-- The `forEach` accumulation of method `generateCyclicalLoad(date)`;
`if (appliance.cycle)` is the truthiness test `cycle ≠ 0`. -/
def cyclicalAux (t : ℤ) : List (String × Appliance) → ℚ → ℚ
  | [], load => load
  | (_, a) :: rest, load =>
      if a.cycle ≠ 0 then
        let cyclePosition : ℚ := ((minutesOf t % a.cycle : ℕ) : ℚ) / (a.cycle : ℚ)
        cyclicalAux t rest (if cyclePosition < a.dutyCycle then load + a.power else load)
      else cyclicalAux t rest load

/-- Method `generateCyclicalLoad(date)`. -/
def generateCyclicalLoad (cfg : BaseConfig) (t : ℤ) : ℚ :=
  cyclicalAux t cfg.appliances 0

/-- The `forEach` accumulation of `generateProbabilisticLoad`; a random
draw is consumed exactly for the appliances passing the truthiness test
`appliance.probability && !appliance.alwaysOn && !appliance.cycle`. -/
def probAux (tm : ℚ) (r : ℕ → ℚ) : List (String × Appliance) → ℚ → ℕ → ℚ × ℕ
  | [], load, i => (load, i)
  | (_, a) :: rest, load, i =>
      if a.probability ≠ 0 ∧ a.alwaysOn = false ∧ a.cycle = 0 then
        let adjustedProbability := a.probability * tm
        probAux tm r rest (if r i < adjustedProbability then load + a.power else load) (i + 1)
      else probAux tm r rest load i

/-- Method `generateProbabilisticLoad(date, timeMultiplier)`,
returning the load together with the advanced random cursor. -/
def generateProbabilisticLoad (cfg : BaseConfig) (tm : ℚ) (r : ℕ → ℚ) (i : ℕ) : ℚ × ℕ :=
  probAux tm r cfg.appliances 0 i

/-- The Nepal-specific probability boosts applied by
`startOccasionalAppliances` before its start draw. -/
def adjustedOccProbability (name : String) (a : OccasionalAppliance) (t : ℤ) (tm : ℚ) : ℚ :=
  let hour := hoursOf t
  let month := monthOf t
  let p := a.probability * tm
  let p := if name = "water_heater" ∧
      ((6 ≤ hour ∧ hour ≤ 9) ∨ (18 ≤ hour ∧ hour ≤ 21)) then p * 2 else p
  let p := if name = "air_conditioner" ∧ (4 ≤ month ∧ month ≤ 6) then p * 3 else p
  if name = "space_heater" ∧ (10 ≤ month ∨ month = 0) then p * 4 else p

/-- The `forEach` accumulation of `startOccasionalAppliances`: one draw
per occasional appliance; a new activation (with fixed end time
`date.getTime() + duration * 60000`) is appended only when the draw
succeeds and no activation for that name is present (`Map.has`). -/
def startOccAux (t : ℤ) (tm : ℚ) (r : ℕ → ℚ) :
    List (String × OccasionalAppliance) → List (String × ActiveAppliance) → ℕ →
    List (String × ActiveAppliance) × ℕ
  | [], acc, i => (acc, i)
  | (name, a) :: rest, acc, i =>
      let adjustedProbability := adjustedOccProbability name a t tm
      let acc' :=
        if r i < adjustedProbability ∧ (acc.lookup name).isNone then
          acc ++ [(name, ⟨a.power, t + (a.duration : ℤ) * 60000⟩)]
        else acc
      startOccAux t tm r rest acc' (i + 1)

/-- Method `startOccasionalAppliances(date, timeMultiplier)` acting on
the active-appliance map, returning it with the advanced cursor. -/
def startOccasionalAppliances (t : ℤ) (tm : ℚ) (r : ℕ → ℚ)
    (acc : List (String × ActiveAppliance)) (i : ℕ) :
    List (String × ActiveAppliance) × ℕ :=
  startOccAux t tm r occasionalAppliances acc i

/-- The loop of method `updateActiveAppliances(date)`: entries whose
end time has been reached (`date >= endTime`) are removed, the powers of
the surviving entries are summed. -/
def updateAux (t : ℤ) : List (String × ActiveAppliance) → ℚ × List (String × ActiveAppliance)
  | [] => (0, [])
  | (name, a) :: rest =>
      let res := updateAux t rest
      if t ≥ a.endTime then res
      else (res.1 + a.power, (name, a) :: res.2)

/-- Method `updateActiveAppliances(date)`:
active load and the pruned map. -/
def updateActiveAppliances (t : ℤ) (m : List (String × ActiveAppliance)) :
    ℚ × List (String × ActiveAppliance) :=
  updateAux t m

/-- Lines 168-170 of `checkAnomalies`: pick the anomaly kind from the
configured table by `Math.floor(draw * anomalyTypes.length)` and build
the anomaly object `{ ...config.anomalies.types[k], type: k }`. -/
def pickAnomaly (x : ℚ) : AnomalyEvent :=
  let idx := (⌊x * (anomalyTypesList.length : ℚ)⌋).toNat
  let chosen := anomalyTypesList.getD idx ("", default)
  { type := chosen.1
    multiplier := chosen.2.multiplier
    voltageMultiplier := chosen.2.voltageMultiplier
    duration := chosen.2.duration }

/-- Method `checkAnomalies()`.  While an anomaly is active the counter
is decremented and the stored anomaly returned with no random draw;
when idle, one draw against `config.anomalies.probability * 1.5` may
activate, and a second draw then picks the kind uniformly with its
configured duration. -/
def checkAnomalies (s : SimState) (r : ℕ → ℚ) (i : ℕ) :
    Option AnomalyEvent × SimState × ℕ :=
  if 0 < s.anomalyRemaining then
    (s.anomaly, { s with anomalyRemaining := s.anomalyRemaining - 1 }, i)
  else
    let anomalyProbability := anomaliesProbability * (15/10)
    if r i < anomalyProbability then
      let a := pickAnomaly (r (i + 1))
      (some a, { s with anomaly := some a, anomalyRemaining := a.duration }, i + 2)
    else (none, s, i + 1)

/-- One generated meter reading (the object built by
`generateMeterReading`); `timestamp` is kept as epoch milliseconds and
`anomaly_type` is `none` when the JavaScript object carries no
`anomaly_type` key. -/
structure Reading where
  user_id : String
  timestamp : ℤ
  voltage : ℚ
  global_active_power : ℚ
  global_reactive_power : ℚ
  global_intensity : ℚ
  energy_kwh : ℚ
  sample_interval_seconds : ℕ
  anomaly_type : Option String := none
  deriving DecidableEq, Inhabited

/-- Method `applyAnomaly(readings, anomaly)`. -/
def applyAnomaly (rd : Reading) (a : AnomalyEvent) : Reading :=
  let rd :=
    match a.multiplier with
    | some m => { rd with global_active_power := rd.global_active_power * m }
    | none => rd
  match a.voltageMultiplier with
  | some vm => { rd with voltage := rd.voltage * vm }
  | none => rd

/-- Lines 208-213 of `generateMeterReading`: multiply by the bounded
symmetric noise factor `1 + (draw - 0.5) * 0.1` and floor the result at
half the profile baseline (`Math.max(power, baseline * 0.5)`). -/
def applyNoiseAndFloor (cfg : BaseConfig) (p : ℚ) (d : ℚ) : ℚ :=
  max (p * (1 + (d - 1/2) * (1/10))) (cfg.baseline * (1/2))

/-- The floored total active power of one tick (lines 199-213 of
`generateMeterReading`): combine base, cyclical, probabilistic and
occasional loads, apply the seasonal and time-of-day multipliers, the
noise draw and the baseline floor.  The random cursor layout is that of
the method: occasional-start draws first, then the probabilistic draws,
then the noise draw. -/
def tickTotalActivePower (s : SimState) (t : ℤ) (r : ℕ → ℚ) (i : ℕ) : ℚ :=
  let seasonalMultiplier := getSeasonalMultiplier t
  let timeMultiplier := getTimePatternMultiplier t
  let occRes := startOccasionalAppliances t timeMultiplier r s.activeAppliances i
  let baseLoad := generateBaseLoad s.baseConfig
  let cyclicalLoad := generateCyclicalLoad s.baseConfig t
  let probRes := generateProbabilisticLoad s.baseConfig timeMultiplier r occRes.2
  let activeLoad := (updateActiveAppliances t occRes.1).1
  applyNoiseAndFloor s.baseConfig
    ((baseLoad + cyclicalLoad + probRes.1 + activeLoad) * seasonalMultiplier * timeMultiplier)
    (r probRes.2)

/-- Method `generateMeterReading(timestamp)`: one simulator tick.
Returns the reading, the updated instance state and the advanced random
cursor.  Draw order follows the method body: occasional starts,
probabilistic loads, noise, voltage, then the anomaly check; the energy
accumulator is updated before the anomaly is applied, so the anomaly
multiplier scales only the reported `global_active_power` (and
voltage), never the energy. -/
def generateMeterReading (s : SimState) (t : ℤ) (r : ℕ → ℚ) (i : ℕ) :
    Reading × SimState × ℕ :=
  let timeMultiplier := getTimePatternMultiplier t
  let occRes := startOccasionalAppliances t timeMultiplier r s.activeAppliances i
  let probRes := generateProbabilisticLoad s.baseConfig timeMultiplier r occRes.2
  let updateRes := updateActiveAppliances t occRes.1
  let totalActivePower := tickTotalActivePower s t r i
  let i2 := probRes.2
  let voltage := baseVoltage * (1 + (r (i2 + 1) - 1/2) * (voltageVariation * (12/10)))
  let global_reactive_power := totalActivePower * tanAcosPowerFactor / 1000
  let global_intensity := totalActivePower / voltage
  let energy_this_minute := (totalActivePower / 1000) * ((sampleInterval : ℚ) / 3600)
  let newEnergy := s.energy_kwh + energy_this_minute
  let s1 : SimState := { s with activeAppliances := updateRes.2, energy_kwh := newEnergy }
  let readings : Reading :=
    { user_id := s.userId
      timestamp := t
      voltage := toFixed 2 voltage
      global_active_power := toFixed 4 (totalActivePower / 1000)
      global_reactive_power := toFixed 4 global_reactive_power
      global_intensity := toFixed 4 global_intensity
      energy_kwh := toFixed 4 newEnergy
      sample_interval_seconds := sampleInterval
      anomaly_type := none }
  let anomRes := checkAnomalies s1 r (i2 + 2)
  match anomRes.1 with
  | some a => ({ applyAnomaly readings a with anomaly_type := some a.type }, anomRes.2.1, anomRes.2.2)
  | none => (readings, anomRes.2.1, anomRes.2.2)

/-- Method `generateReadings(count, startTime)`: generate `count`
readings, advancing the timestamp by `config.simulation.sampleInterval`
seconds between consecutive readings. -/
def generateReadings (r : ℕ → ℚ) :
    ℕ → SimState → ℤ → ℕ → List Reading × SimState × ℕ
  | 0, s, _, i => ([], s, i)
  | n + 1, s, currentTime, i =>
      let res := generateMeterReading s currentTime r i
      let rest := generateReadings r n res.2.1 (currentTime + (sampleInterval : ℤ) * 1000) res.2.2
      (res.1 :: rest.1, rest.2.1, rest.2.2)

/-! ## Real-Time Power State and Interactive State Store

Modelled from the spec: the Interactive State Store (spec section 4.2)
and Real-Time Power State (spec section 4.3) have no implementation
under the repository sources (the backend contains only authentication
code); the definitions below follow the specification text. -/

/-- Modelled from the spec: an appliance catalog entry (spec section 3,
`ApplianceDefinition`: id and rated power draw in watts). -/
structure ApplianceDefinition where
  id : String
  rated_watts : ℚ
  deriving DecidableEq

/-- Modelled from the spec: the merged Real-Time Power State of one
household (spec section 3, `PowerState`). -/
structure PowerState where
  background_kw : ℚ
  interactive_kw : ℚ
  total_kw : ℚ
  deriving DecidableEq

/-- Modelled from the spec: one household of the aggregation engine,
its per-appliance on/off states plus its merged power state. -/
structure HouseholdModel where
  appliances : List (ApplianceDefinition × Bool)
  power : PowerState
  deriving DecidableEq

/-- Modelled from the spec: `interactive_kw` recomputed as the sum of
rated watts of all on appliances divided by 1000 (spec sections 3 and
4.2; the recomputation is a full sum, not an incremental update). -/
def interactiveKw (l : List (ApplianceDefinition × Bool)) : ℚ :=
  ((l.filter (fun e => e.2)).map (fun e => e.1.rated_watts)).sum / 1000

/-- Modelled from the spec: `initialize(household_id)` seeds one
ApplianceState per catalog entry, off by default (spec section 4.2). -/
def initializeHousehold (catalog : List ApplianceDefinition) : HouseholdModel :=
  { appliances := catalog.map (fun d => (d, false))
    power := { background_kw := 0, interactive_kw := 0, total_kw := 0 } }

/-- Modelled from the spec: the two kinds of event that write into the
Real-Time Power State (spec section 4.3): a background-simulator tick
carrying a new `background_kw`, and an appliance toggle. -/
inductive PowerEvent where
  | tick (background_kw : ℚ)
  | toggle (appliance_id : String) (is_on : Bool)
  deriving DecidableEq

/-- Modelled from the spec: applying one event to a household (spec
sections 4.2 and 4.3).  A tick overwrites `background_kw` and recomputes
`total_kw`; a toggle of a known appliance applies the state change,
recomputes `interactive_kw` as the full sum and recomputes `total_kw`;
a toggle of an unknown appliance fails with NotFound and changes
nothing. -/
def applyEvent (h : HouseholdModel) : PowerEvent → HouseholdModel
  | .tick bg =>
      { h with power :=
          { background_kw := bg
            interactive_kw := h.power.interactive_kw
            total_kw := bg + h.power.interactive_kw } }
  | .toggle aid is_on =>
      if (h.appliances.map (fun e => e.1.id)).contains aid then
        let appliances := h.appliances.map (fun e => if e.1.id = aid then (e.1, is_on) else e)
        let ik := interactiveKw appliances
        { appliances := appliances
          power :=
            { background_kw := h.power.background_kw
              interactive_kw := ik
              total_kw := h.power.background_kw + ik } }
      else h

/-- Modelled from the spec: a household under a sequence of merge
events. -/
def runEvents (h : HouseholdModel) (evs : List PowerEvent) : HouseholdModel :=
  evs.foldl applyEvent h

/-! ## Forecast Comparator

Modelled from the spec: the Forecast Comparator (spec section 4.5) has
no implementation under the repository sources; `compareForecast`
follows the specification text (the source keeps the name `compare`,
which collides with a core Lean name). -/

/-- Modelled from the spec: the failure mode of the comparator. -/
inductive CompareError where
  | insufficientData
  deriving DecidableEq

/-- Modelled from the spec: `compare(household_id, period)` reduced to
its data: an optional forecast (absent modelling a missing
ForecastPoint) and the actual energy.  Fails with InsufficientData when
the forecast is zero or absent, otherwise scores
`(forecast_kwh - actual_kwh) / forecast_kwh * 100`. -/
def compareForecast (forecast_kwh : Option ℚ) (actual_kwh : ℚ) : Except CompareError ℚ :=
  match forecast_kwh with
  | none => .error .insufficientData
  | some f =>
      if f = 0 then .error .insufficientData
      else .ok ((f - actual_kwh) / f * 100)

/-! ## Helper lemmas -/

/-- The merged-state invariant of spec section 3: the stored total is
the sum of the components and the stored interactive power is the full
recomputed sum. -/
def HouseholdInv (h : HouseholdModel) : Prop :=
  h.power.total_kw = h.power.background_kw + h.power.interactive_kw ∧
  h.power.interactive_kw = interactiveKw h.appliances

lemma householdInv_applyEvent {h : HouseholdModel} (hinv : HouseholdInv h)
    (e : PowerEvent) : HouseholdInv (applyEvent h e) := by
  obtain ⟨h1, h2⟩ := hinv
  cases e with
  | tick bg =>
      exact ⟨rfl, h2⟩
  | toggle aid is_on =>
      unfold applyEvent
      by_cases hmem : (h.appliances.map (fun e => e.1.id)).contains aid
      · simp only [hmem, if_true]
        exact ⟨rfl, rfl⟩
      · simp only [hmem, if_false]
        exact ⟨h1, h2⟩

lemma householdInv_init (catalog : List ApplianceDefinition) :
    HouseholdInv (initializeHousehold catalog) := by
  constructor
  · simp [initializeHousehold]
  · simp only [initializeHousehold, interactiveKw]
    induction catalog with
    | nil => simp
    | cons d rest ih => simpa [List.filter] using ih

lemma householdInv_runEvents {h : HouseholdModel} (hinv : HouseholdInv h) :
    ∀ evs : List PowerEvent, HouseholdInv (runEvents h evs) := by
  intro evs
  induction evs generalizing h with
  | nil => exact hinv
  | cons e rest ih => exact ih (householdInv_applyEvent hinv e)

/-- C1: for every household and after every merge event (simulator tick
or appliance toggle), the Real-Time Power State satisfies
`total_kw = background_kw + interactive_kw`, where `interactive_kw` is
the sum of rated watts of the appliances that are on, divided by 1000. -/
theorem realtime_power_state_invariant (catalog : List ApplianceDefinition)
    (evs : List PowerEvent) :
    (runEvents (initializeHousehold catalog) evs).power.total_kw =
        (runEvents (initializeHousehold catalog) evs).power.background_kw +
        (runEvents (initializeHousehold catalog) evs).power.interactive_kw ∧
    (runEvents (initializeHousehold catalog) evs).power.interactive_kw =
        interactiveKw (runEvents (initializeHousehold catalog) evs).appliances :=
  householdInv_runEvents (householdInv_init catalog) evs

/-- C3: the efficiency score is
`(forecast_kwh - actual_kwh) / forecast_kwh * 100`, positive exactly
when actual is below forecast and negative exactly when it exceeds it;
a zero or absent forecast fails with InsufficientData; the three worked
examples of the specification evaluate as stated. -/
theorem compareForecast_spec :
    (∀ f a : ℚ, 0 < f →
        compareForecast (some f) a = .ok ((f - a) / f * 100) ∧
        (0 < (f - a) / f * 100 ↔ a < f) ∧
        ((f - a) / f * 100 < 0 ↔ f < a)) ∧
    compareForecast (some 100) 80 = .ok 20 ∧
    compareForecast (some 100) 120 = .ok (-20) ∧
    (∀ a : ℚ, compareForecast (some 0) a = .error .insufficientData) ∧
    (∀ a : ℚ, compareForecast none a = .error .insufficientData) := by
  refine ⟨?_, by norm_num [compareForecast], by norm_num [compareForecast],
    fun a => by simp [compareForecast], fun a => rfl⟩
  intro f a hf
  refine ⟨by simp [compareForecast, hf.ne'], ?_, ?_⟩
  · rw [div_mul_eq_mul_div, lt_div_iff₀ hf]
    constructor
    · intro h; nlinarith
    · intro h; nlinarith
  · rw [div_mul_eq_mul_div, div_lt_iff₀ hf]
    constructor
    · intro h; nlinarith
    · intro h; nlinarith

/-- Witness for C3 at the concrete input of the specification example. -/
theorem compareForecast_spec_witness :
    compareForecast (some 100) 80 = .ok ((100 - 80) / 100 * 100) ∧
    (0 < ((100 : ℚ) - 80) / 100 * 100 ↔ (80 : ℚ) < 100) :=
  ⟨(compareForecast_spec.1 100 80 (by norm_num)).1,
   (compareForecast_spec.1 100 80 (by norm_num)).2.1⟩

/-- C4: every tick's combined load is perturbed by the symmetric
multiplicative noise factor `1 + (draw - 0.5) * 0.1`, bounded by the
configured fraction (one twentieth) for draws in `[0, 1)`, and the
result is floored so that the produced power is never below half the
profile baseline. -/
theorem noise_bounded_and_floored :
    (∀ (s : SimState) (t : ℤ) (r : ℕ → ℚ) (i : ℕ),
        s.baseConfig.baseline * (1/2) ≤ tickTotalActivePower s t r i) ∧
    (∀ (cfg : BaseConfig) (p d : ℚ), 0 ≤ p → 0 ≤ d → d < 1 →
        |(1 + (d - 1/2) * (1/10)) - 1| ≤ 1/20 ∧
        p * (1 - 1/20) ≤ p * (1 + (d - 1/2) * (1/10)) ∧
        p * (1 + (d - 1/2) * (1/10)) ≤ p * (1 + 1/20) ∧
        cfg.baseline * (1/2) ≤ applyNoiseAndFloor cfg p d) := by
  constructor
  · intro s t r i
    simp only [tickTotalActivePower, applyNoiseAndFloor]
    exact le_max_right _ _
  · intro cfg p d hp hd0 hd1
    refine ⟨?_, by nlinarith, by nlinarith, le_max_right _ _⟩
    rw [abs_le]
    constructor <;> nlinarith

/-- Witness for C4 at concrete inputs. -/
theorem noise_bounded_and_floored_witness :
    ((initialSimState "household-1" "normal").baseConfig.baseline * (1/2) ≤
        tickTotalActivePower (initialSimState "household-1" "normal") 0 (fun _ => 0) 0) ∧
    normalConfig.baseline * (1/2) ≤ applyNoiseAndFloor normalConfig 100 (1/2) :=
  ⟨noise_bounded_and_floored.1 (initialSimState "household-1" "normal") 0 (fun _ => 0) 0,
   (noise_bounded_and_floored.2 normalConfig 100 (1/2) (by norm_num) (by norm_num)
      (by norm_num)).2.2.2⟩

/-- C6: the seasonal multiplier is selected solely from the calendar
month; any timestamp whose month index lies in 4..6 (May to July)
selects the configured summer multiplier, regardless of day of week or
hour. -/
theorem seasonal_summer_months (t : ℤ) (h4 : 4 ≤ monthOf t) (h6 : monthOf t ≤ 6) :
    getSeasonalMultiplier t = seasonalMultipliers.summer := by
  simp only [getSeasonalMultiplier]
  rw [if_neg (by omega), if_pos ⟨h4, h6⟩]

/-- Witness for C6: 2024-05-15T00:00:00Z (epoch 1715731200000 ms) lies
in month index 4 and selects the summer multiplier 1.3. -/
theorem seasonal_summer_months_witness :
    4 ≤ monthOf 1715731200000 ∧ monthOf 1715731200000 ≤ 6 ∧
    getSeasonalMultiplier 1715731200000 = seasonalMultipliers.summer :=
  ⟨by decide, by decide,
   seasonal_summer_months 1715731200000 (by decide) (by decide)⟩

lemma cyclicalAux_eq (t : ℤ) :
    ∀ (l : List (String × Appliance)) (load : ℚ),
      cyclicalAux t l load = load +
        (l.map (fun e =>
          if e.2.cycle ≠ 0 ∧
              ((minutesOf t % e.2.cycle : ℕ) : ℚ) / (e.2.cycle : ℚ) < e.2.dutyCycle
          then e.2.power else 0)).sum := by
  intro l
  induction l with
  | nil => intro load; simp [cyclicalAux]
  | cons e rest ih =>
      intro load
      obtain ⟨n, a⟩ := e
      by_cases hc : a.cycle ≠ 0
      · by_cases hd : ((minutesOf t % a.cycle : ℕ) : ℚ) / (a.cycle : ℚ) < a.dutyCycle
        · simp only [cyclicalAux, hc, if_true, hd, List.map_cons, List.sum_cons, ih]
          simp [hc, hd]
          ring
        · simp only [cyclicalAux, hc, if_true, hd, List.map_cons, List.sum_cons, ih]
          simp [hc, hd]
      · simp only [cyclicalAux, hc, List.map_cons, List.sum_cons, ih]
        simp at hc
        simp [hc]

/-- C7: an appliance configured with a cycle contributes its power to
the cyclical load exactly when
`(minute mod cycle_length) / cycle_length < duty_cycle` for the tick's
timestamp minute, and contributes nothing otherwise. -/
theorem cyclical_duty_cycle (cfg : BaseConfig) (t : ℤ) :
    generateCyclicalLoad cfg t =
      (cfg.appliances.map (fun e =>
        if e.2.cycle ≠ 0 ∧
            ((minutesOf t % e.2.cycle : ℕ) : ℚ) / (e.2.cycle : ℚ) < e.2.dutyCycle
        then e.2.power else 0)).sum := by
  simpa using cyclicalAux_eq t cfg.appliances 0

lemma lookup_eq_none_iff_not_mem {l : List (String × ActiveAppliance)} {n : String} :
    l.lookup n = none ↔ n ∉ l.map Prod.fst := by
  induction l with
  | nil => simp
  | cons e rest ih =>
      obtain ⟨m, a⟩ := e
      by_cases h : n = m
      · subst h; simp [List.lookup]
      · have hb : (n == m) = false := by simp [h]
        simp only [List.lookup, hb, List.map_cons, List.mem_cons]
        rw [ih]
        push_neg
        tauto

lemma lookup_append_left {l₁ l₂ : List (String × ActiveAppliance)} {n : String}
    (h : (l₁.lookup n).isSome) : (l₁ ++ l₂).lookup n = l₁.lookup n := by
  induction l₁ with
  | nil => simp at h
  | cons e rest ih =>
      obtain ⟨m, a⟩ := e
      by_cases hm : n = m
      · subst hm; simp [List.lookup]
      · have hb : (n == m) = false := by simp [hm]
        simp only [List.cons_append, List.lookup, hb] at h ⊢
        exact ih h

lemma startOccAux_spec (t : ℤ) (tm : ℚ) (r : ℕ → ℚ) :
    ∀ (occ : List (String × OccasionalAppliance)) (acc : List (String × ActiveAppliance)) (i : ℕ),
      ∃ added,
        (startOccAux t tm r occ acc i).1 = acc ++ added ∧
        (∀ e ∈ added, ∃ oa ∈ occ,
            e = (oa.1, ⟨oa.2.power, t + (oa.2.duration : ℤ) * 60000⟩)) ∧
        ((acc.map Prod.fst).Nodup → ((startOccAux t tm r occ acc i).1.map Prod.fst).Nodup) := by
  intro occ
  induction occ with
  | nil =>
      intro acc i
      exact ⟨[], by simp [startOccAux], by simp, fun h => by simpa [startOccAux] using h⟩
  | cons oa rest ih =>
      intro acc i
      obtain ⟨name, a⟩ := oa
      by_cases hcond : r i < adjustedOccProbability name a t tm ∧ (acc.lookup name).isNone
      · obtain ⟨added, h1, h2, h3⟩ :=
          ih (acc ++ [(name, ⟨a.power, t + (a.duration : ℤ) * 60000⟩)]) (i + 1)
        refine ⟨(name, ⟨a.power, t + (a.duration : ℤ) * 60000⟩) :: added, ?_, ?_, ?_⟩
        · simp only [startOccAux, hcond, and_self, if_true]
          rw [h1]
          simp
        · intro e he
          rcases List.mem_cons.mp he with he | he
          · exact ⟨(name, a), List.mem_cons_self _ _, by simp [he]⟩
          · obtain ⟨oa, hoa, hoae⟩ := h2 e he
            exact ⟨oa, List.mem_cons_of_mem _ hoa, hoae⟩
        · intro hnodup
          simp only [startOccAux, hcond, and_self, if_true]
          apply h3
          have hfresh : name ∉ acc.map Prod.fst :=
            lookup_eq_none_iff_not_mem.mp (Option.isNone_iff_eq_none.mp hcond.2)
          simp only [List.map_append, List.map_cons, List.map_nil]
          rw [List.nodup_append]
          refine ⟨hnodup, List.nodup_singleton _, ?_⟩
          intro x hx hy
          rw [List.mem_singleton] at hy
          subst hy
          exact hfresh hx
      · obtain ⟨added, h1, h2, h3⟩ := ih acc (i + 1)
        refine ⟨added, ?_, ?_, ?_⟩
        · simpa only [startOccAux, hcond, if_false] using h1
        · intro e he
          obtain ⟨oa, hoa, hoae⟩ := h2 e he
          exact ⟨oa, List.mem_cons_of_mem _ hoa, hoae⟩
        · intro hnodup
          simpa only [startOccAux, hcond, if_false] using h3 hnodup

lemma updateAux_spec (t : ℤ) : ∀ m : List (String × ActiveAppliance),
    updateAux t m =
      (((m.filter (fun e => decide (t < e.2.endTime))).map (fun e => e.2.power)).sum,
        m.filter (fun e => decide (t < e.2.endTime))) := by
  intro m
  induction m with
  | nil => simp [updateAux]
  | cons e rest ih =>
      obtain ⟨n, a⟩ := e
      by_cases h : t ≥ a.endTime
      · have h' : ¬(t < a.endTime) := by omega
        simp [updateAux, h, ih, List.filter_cons, h']
      · have h' : t < a.endTime := by omega
        simp [updateAux, h, ih, List.filter_cons, h', add_comm]

/-- C8: occasional-appliance lifecycle.  A tick's start pass never
touches existing activations (so at most one activation per appliance
name is ever held: distinct names are preserved), every activation it
records carries the fixed end time `start + duration * 60000` taken
from the configured table, and the update pass removes exactly the
activations whose end time has been reached while summing the power of
the survivors. -/
theorem occasional_appliance_lifecycle :
    (∀ (t : ℤ) (tm : ℚ) (r : ℕ → ℚ) (acc : List (String × ActiveAppliance)) (i : ℕ),
      ∃ added,
        (startOccasionalAppliances t tm r acc i).1 = acc ++ added ∧
        (∀ n : String, (acc.lookup n).isSome →
            (startOccasionalAppliances t tm r acc i).1.lookup n = acc.lookup n) ∧
        (∀ e ∈ added, ∃ oa ∈ occasionalAppliances,
            e = (oa.1, ⟨oa.2.power, t + (oa.2.duration : ℤ) * 60000⟩)) ∧
        ((acc.map Prod.fst).Nodup →
            ((startOccasionalAppliances t tm r acc i).1.map Prod.fst).Nodup)) ∧
    (∀ (t : ℤ) (m : List (String × ActiveAppliance)),
        updateActiveAppliances t m =
          (((m.filter (fun e => decide (t < e.2.endTime))).map (fun e => e.2.power)).sum,
            m.filter (fun e => decide (t < e.2.endTime)))) := by
  constructor
  · intro t tm r acc i
    obtain ⟨added, h1, h2, h3⟩ := startOccAux_spec t tm r occasionalAppliances acc i
    refine ⟨added, h1, ?_, h2, h3⟩
    intro n hn
    have h1' : (startOccasionalAppliances t tm r acc i).1 = acc ++ added := h1
    rw [h1']
    exact lookup_append_left hn
  · intro t m
    exact updateAux_spec t m

/-- Witness for C8 at concrete inputs. -/
theorem occasional_appliance_lifecycle_witness :
    (∃ added,
        (startOccasionalAppliances 0 1 (fun _ => 1) [] 0).1 = [] ++ added ∧
        (∀ n : String, (List.lookup n ([] : List (String × ActiveAppliance))).isSome →
            (startOccasionalAppliances 0 1 (fun _ => 1) [] 0).1.lookup n =
              List.lookup n ([] : List (String × ActiveAppliance))) ∧
        (∀ e ∈ added, ∃ oa ∈ occasionalAppliances,
            e = (oa.1, ⟨oa.2.power, 0 + (oa.2.duration : ℤ) * 60000⟩)) ∧
        ((([] : List (String × ActiveAppliance)).map Prod.fst).Nodup →
            ((startOccasionalAppliances 0 1 (fun _ => 1) [] 0).1.map Prod.fst).Nodup)) ∧
    updateActiveAppliances 0 [("microwave", ⟨1000, 300000⟩)] =
      (1000, [("microwave", ⟨1000, 300000⟩)]) :=
  ⟨occasional_appliance_lifecycle.1 0 1 (fun _ => 1) [] 0,
   by rw [occasional_appliance_lifecycle.2 0 _]; norm_num⟩

lemma applyAnomaly_timestamp (rd : Reading) (a : AnomalyEvent) :
    (applyAnomaly rd a).timestamp = rd.timestamp := by
  unfold applyAnomaly
  cases a.multiplier <;> cases a.voltageMultiplier <;> rfl

lemma generateMeterReading_timestamp (s : SimState) (t : ℤ) (r : ℕ → ℚ) (i : ℕ) :
    (generateMeterReading s t r i).1.timestamp = t := by
  simp only [generateMeterReading]
  split
  · simp [applyAnomaly_timestamp]
  · rfl

/-- C9: generateReadings(count, startTime) returns exactly `count`
readings; the reading at index `j` is generated for timestamp
`startTime + j * sampleInterval` seconds, so timestamps are strictly
increasing and uniformly spaced by the configured sample interval. -/
theorem generateReadings_count_and_spacing (r : ℕ → ℚ) (n : ℕ) (s : SimState) (t : ℤ) (i : ℕ) :
    (generateReadings r n s t i).1.length = n ∧
    (∀ j, j < n →
        ((generateReadings r n s t i).1.getD j default).timestamp =
          t + (j : ℤ) * ((sampleInterval : ℤ) * 1000)) ∧
    (∀ j k, j < k → k < n →
        ((generateReadings r n s t i).1.getD j default).timestamp <
          ((generateReadings r n s t i).1.getD k default).timestamp) := by
  have main : ∀ (n : ℕ) (s : SimState) (t : ℤ) (i : ℕ),
      (generateReadings r n s t i).1.length = n ∧
      (∀ j, j < n →
          ((generateReadings r n s t i).1.getD j default).timestamp =
            t + (j : ℤ) * ((sampleInterval : ℤ) * 1000)) := by
    intro n
    induction n with
    | zero => intro s t i; exact ⟨rfl, fun j hj => absurd hj (by omega)⟩
    | succ m ih =>
        intro s t i
        constructor
        · simp only [generateReadings, List.length_cons]
          exact congrArg Nat.succ
            (ih (generateMeterReading s t r i).2.1 (t + (sampleInterval : ℤ) * 1000)
              (generateMeterReading s t r i).2.2).1
        · intro j hj
          cases j with
          | zero =>
              simp only [generateReadings, List.getD_cons_zero]
              simpa using generateMeterReading_timestamp s t r i
          | succ k =>
              simp only [generateReadings, List.getD_cons_succ]
              rw [(ih (generateMeterReading s t r i).2.1 (t + (sampleInterval : ℤ) * 1000)
                    (generateMeterReading s t r i).2.2).2 k (by omega)]
              push_cast
              ring
  refine ⟨(main n s t i).1, (main n s t i).2, ?_⟩
  intro j k hjk hk
  rw [(main n s t i).2 j (by omega), (main n s t i).2 k (by omega)]
  have hjk' : (j : ℤ) < (k : ℤ) := by exact_mod_cast hjk
  have : (sampleInterval : ℤ) * 1000 = 60000 := by norm_num [sampleInterval]
  rw [this]
  omega

/-- Witness for C9 at a concrete input. -/
theorem generateReadings_count_and_spacing_witness :
    (generateReadings (fun _ => 1) 2 (initialSimState "household-1" "normal") 0 0).1.length = 2 ∧
    ((generateReadings (fun _ => 1) 2 (initialSimState "household-1" "normal") 0 0).1.getD 1
        default).timestamp = 0 + (1 : ℤ) * ((sampleInterval : ℤ) * 1000) :=
  ⟨(generateReadings_count_and_spacing (fun _ => 1) 2 (initialSimState "household-1" "normal") 0 0).1,
   (generateReadings_count_and_spacing (fun _ => 1) 2 (initialSimState "household-1" "normal") 0
      0).2.1 1 (by norm_num)⟩

lemma tickTotalActivePower_ge_half_baseline (s : SimState) (t : ℤ) (r : ℕ → ℚ) (i : ℕ) :
    s.baseConfig.baseline * (1/2) ≤ tickTotalActivePower s t r i := by
  simp only [tickTotalActivePower, applyNoiseAndFloor]
  exact le_max_right _ _

lemma checkAnomalies_state (s : SimState) (r : ℕ → ℚ) (i : ℕ) :
    (checkAnomalies s r i).2.1.energy_kwh = s.energy_kwh ∧
    (checkAnomalies s r i).2.1.baseConfig = s.baseConfig ∧
    (checkAnomalies s r i).2.1.activeAppliances = s.activeAppliances := by
  simp only [checkAnomalies]
  split
  · exact ⟨rfl, rfl, rfl⟩
  · split
    · exact ⟨rfl, rfl, rfl⟩
    · exact ⟨rfl, rfl, rfl⟩

lemma applyAnomaly_energy (rd : Reading) (a : AnomalyEvent) :
    (applyAnomaly rd a).energy_kwh = rd.energy_kwh := by
  unfold applyAnomaly
  cases a.multiplier <;> cases a.voltageMultiplier <;> rfl

lemma generateMeterReading_state_energy (s : SimState) (t : ℤ) (r : ℕ → ℚ) (i : ℕ) :
    (generateMeterReading s t r i).2.1.energy_kwh =
      s.energy_kwh + tickTotalActivePower s t r i / 1000 * ((sampleInterval : ℚ) / 3600) := by
  simp only [generateMeterReading]
  split
  · exact (checkAnomalies_state _ _ _).1
  · exact (checkAnomalies_state _ _ _).1

lemma generateMeterReading_state_baseConfig (s : SimState) (t : ℤ) (r : ℕ → ℚ) (i : ℕ) :
    (generateMeterReading s t r i).2.1.baseConfig = s.baseConfig := by
  simp only [generateMeterReading]
  split
  · exact (checkAnomalies_state _ _ _).2.1
  · exact (checkAnomalies_state _ _ _).2.1

lemma generateMeterReading_reading_energy (s : SimState) (t : ℤ) (r : ℕ → ℚ) (i : ℕ) :
    (generateMeterReading s t r i).1.energy_kwh =
      toFixed 4 ((generateMeterReading s t r i).2.1.energy_kwh) := by
  simp only [generateMeterReading]
  split
  · rw [(checkAnomalies_state _ _ _).1]
    simp [applyAnomaly_energy]
  · rw [(checkAnomalies_state _ _ _).1]

lemma toFixed_lt_of_gap {x y : ℚ} (h : x + 1/10000 < y) : toFixed 4 x < toFixed 4 y := by
  unfold toFixed
  have hr : round (x * 10 ^ (4:ℕ)) < round (y * 10 ^ (4:ℕ)) := by
    rw [round_eq, round_eq]
    have hle : ⌊x * 10 ^ (4:ℕ) + 1/2⌋ + 1 ≤ ⌊y * 10 ^ (4:ℕ) + 1/2⌋ := by
      calc ⌊x * 10 ^ (4:ℕ) + 1/2⌋ + 1 = ⌊x * 10 ^ (4:ℕ) + 1/2 + 1⌋ :=
            (Int.floor_add_one _).symm
        _ ≤ ⌊y * 10 ^ (4:ℕ) + 1/2⌋ := Int.floor_mono (by norm_num at h ⊢; linarith)
    omega
  have hc : (0:ℚ) < 10 ^ (4:ℕ) := by positivity
  rw [div_lt_div_iff₀ hc hc]
  have hcast : ((round (x * 10 ^ (4:ℕ)) : ℤ) : ℚ) < ((round (y * 10 ^ (4:ℕ)) : ℤ) : ℚ) := by
    exact_mod_cast hr
  nlinarith

/-- C10: each tick adds exactly the pre-anomaly total power (kW) times
`sampleInterval / 3600` hours to the cumulative energy; the increment is
strictly positive because the power is floored at half the profile
baseline, so the internal accumulator and the reported (rounded)
`energy_kwh` of successive readings are strictly increasing; the
reported energy equals the rounded accumulator whether or not an
anomaly multiplier was applied to the same reading's power. -/
theorem energy_strictly_increasing (s : SimState) (t₁ t₂ : ℤ) (r : ℕ → ℚ) (i : ℕ)
    (hb : 12 < s.baseConfig.baseline) :
    (generateMeterReading s t₁ r i).2.1.energy_kwh =
        s.energy_kwh + tickTotalActivePower s t₁ r i / 1000 * ((sampleInterval : ℚ) / 3600) ∧
    s.baseConfig.baseline * (1/2) ≤ tickTotalActivePower s t₁ r i ∧
    s.energy_kwh < (generateMeterReading s t₁ r i).2.1.energy_kwh ∧
    (generateMeterReading s t₁ r i).1.energy_kwh =
        toFixed 4 ((generateMeterReading s t₁ r i).2.1.energy_kwh) ∧
    (generateMeterReading s t₁ r i).1.energy_kwh <
        (generateMeterReading (generateMeterReading s t₁ r i).2.1 t₂ r
            (generateMeterReading s t₁ r i).2.2).1.energy_kwh := by
  have hsi : ((sampleInterval : ℚ) / 3600) = 1/60 := by norm_num [sampleInterval]
  have e1 := generateMeterReading_state_energy s t₁ r i
  have p1 := tickTotalActivePower_ge_half_baseline s t₁ r i
  have inc1 : s.energy_kwh < (generateMeterReading s t₁ r i).2.1.energy_kwh := by
    rw [e1, hsi]
    have : 0 < tickTotalActivePower s t₁ r i := by linarith
    nlinarith
  refine ⟨e1, p1, inc1, generateMeterReading_reading_energy s t₁ r i, ?_⟩
  rw [generateMeterReading_reading_energy s t₁ r i,
    generateMeterReading_reading_energy (generateMeterReading s t₁ r i).2.1 t₂ r
      (generateMeterReading s t₁ r i).2.2]
  apply toFixed_lt_of_gap
  have e2 := generateMeterReading_state_energy (generateMeterReading s t₁ r i).2.1 t₂ r
    (generateMeterReading s t₁ r i).2.2
  have p2 := tickTotalActivePower_ge_half_baseline (generateMeterReading s t₁ r i).2.1 t₂ r
    (generateMeterReading s t₁ r i).2.2
  rw [generateMeterReading_state_baseConfig s t₁ r i] at p2
  rw [e2, hsi]
  nlinarith

/-- Witness for C10 at a concrete input (the normal profile, baseline
120 W). -/
theorem energy_strictly_increasing_witness :
    (initialSimState "household-1" "normal").energy_kwh <
      (generateMeterReading (initialSimState "household-1" "normal") 0 (fun _ => 1) 0).2.1.energy_kwh :=
  (energy_strictly_increasing (initialSimState "household-1" "normal") 0 60000 (fun _ => 1) 0
    (by norm_num [initialSimState, baseConsumption, normalConfig])).2.2.1

/-- The anomaly sub-process observed over consecutive ticks: the list
of anomaly values `checkAnomalies` returns (each applied to that tick's
reading by `generateMeterReading`), with the threaded state and random
cursor. -/
def iterAnomalies (r : ℕ → ℚ) : ℕ → SimState → ℕ → List (Option AnomalyEvent) × SimState × ℕ
  | 0, s, i => ([], s, i)
  | n + 1, s, i =>
      let res := checkAnomalies s r i
      let rest := iterAnomalies r n res.2.1 res.2.2
      (res.1 :: rest.1, rest.2.1, rest.2.2)

lemma iterAnomalies_active (r : ℕ → ℚ) :
    ∀ (k : ℕ) (s : SimState) (i : ℕ), s.anomalyRemaining = k →
      (iterAnomalies r k s i).1 = List.replicate k s.anomaly ∧
      (iterAnomalies r k s i).2.1 = { s with anomalyRemaining := 0 } ∧
      (iterAnomalies r k s i).2.2 = i := by
  intro k
  induction k with
  | zero =>
      intro s i hk
      refine ⟨rfl, ?_, rfl⟩
      cases s
      subst hk
      rfl
  | succ m ih =>
      intro s i hk
      have hpos : 0 < s.anomalyRemaining := by omega
      have hstep : checkAnomalies s r i =
          (s.anomaly, { s with anomalyRemaining := s.anomalyRemaining - 1 }, i) := by
        simp only [checkAnomalies, hpos, if_pos]
      have hrem : ({ s with anomalyRemaining := s.anomalyRemaining - 1 } : SimState).anomalyRemaining = m := by
        simp [hk]
      obtain ⟨ih1, ih2, ih3⟩ := ih { s with anomalyRemaining := s.anomalyRemaining - 1 } i hrem
      simp only [iterAnomalies, hstep]
      exact ⟨by rw [ih1]; rfl, by rw [ih2], ih3⟩

/-- Shorthand for the anomaly state reached after an activation. -/
def activatedState (s : SimState) (ev : AnomalyEvent) : SimState :=
  { s with anomaly := some ev, anomalyRemaining := ev.duration }

lemma checkAnomalies_active_eq (s : SimState) (r : ℕ → ℚ) (i : ℕ)
    (h : 0 < s.anomalyRemaining) :
    checkAnomalies s r i =
      (s.anomaly, { s with anomalyRemaining := s.anomalyRemaining - 1 }, i) := by
  unfold checkAnomalies
  rw [if_pos h]

lemma checkAnomalies_idle_skip (s : SimState) (r : ℕ → ℚ) (i : ℕ)
    (h0 : s.anomalyRemaining = 0) (h : ¬(r i < anomaliesProbability * (15/10))) :
    checkAnomalies s r i = (none, s, i + 1) := by
  unfold checkAnomalies
  rw [if_neg (by omega), if_neg h]

lemma checkAnomalies_idle_activate (s : SimState) (r : ℕ → ℚ) (i : ℕ)
    (h0 : s.anomalyRemaining = 0) (h : r i < anomaliesProbability * (15/10)) :
    checkAnomalies s r i =
      (some (pickAnomaly (r (i + 1))), activatedState s (pickAnomaly (r (i + 1))), i + 2) := by
  unfold checkAnomalies activatedState
  rw [if_neg (by omega), if_pos h]

lemma pickAnomaly_mem {x : ℚ} (h0 : 0 ≤ x) (h1 : x < 1) :
    ((pickAnomaly x).type,
      { multiplier := (pickAnomaly x).multiplier
        voltageMultiplier := (pickAnomaly x).voltageMultiplier
        duration := (pickAnomaly x).duration : AnomalySpec }) ∈ anomalyTypesList := by
  have hb : ⌊x * (anomalyTypesList.length : ℚ)⌋ < 5 := by
    refine Int.floor_lt.mpr ?_
    have hlen : ((anomalyTypesList.length : ℚ)) = 5 := by norm_num [anomalyTypesList]
    rw [hlen]
    push_cast
    nlinarith
  have hnn : 0 ≤ ⌊x * (anomalyTypesList.length : ℚ)⌋ :=
    Int.floor_nonneg.mpr (by positivity)
  have hidx : (⌊x * (anomalyTypesList.length : ℚ)⌋).toNat < anomalyTypesList.length := by
    have hlen : anomalyTypesList.length = 5 := rfl
    omega
  show anomalyTypesList.getD _ ("", default) ∈ anomalyTypesList
  rw [List.getD_eq_getElem _ _ hidx]
  exact List.getElem_mem hidx

/-- C2 (amended): the anomaly sub-process is the finite-state machine
with states idle (`anomalyRemaining = 0`) and active: while active,
each tick returns the stored anomaly for scaling, decrements the
counter and samples nothing; when idle, a tick either activates on the
probability draw — picking a configured kind with its configured
duration — or stays idle.  An activation whose picked kind has duration
`d` yields the anomaly on exactly `d + 1` consecutive tick readings
(the activation tick plus the `d` decrementing ticks), after which the
machine is idle again. -/
theorem anomaly_state_machine :
    (∀ (s : SimState) (r : ℕ → ℚ) (i : ℕ), 0 < s.anomalyRemaining →
        checkAnomalies s r i =
          (s.anomaly, { s with anomalyRemaining := s.anomalyRemaining - 1 }, i)) ∧
    (∀ (s : SimState) (r : ℕ → ℚ) (i : ℕ), s.anomalyRemaining = 0 →
        ¬(r i < anomaliesProbability * (15/10)) →
        checkAnomalies s r i = (none, s, i + 1)) ∧
    (∀ (s : SimState) (r : ℕ → ℚ) (i : ℕ), s.anomalyRemaining = 0 →
        r i < anomaliesProbability * (15/10) → 0 ≤ r (i + 1) → r (i + 1) < 1 →
        ((pickAnomaly (r (i + 1))).type,
          { multiplier := (pickAnomaly (r (i + 1))).multiplier
            voltageMultiplier := (pickAnomaly (r (i + 1))).voltageMultiplier
            duration := (pickAnomaly (r (i + 1))).duration : AnomalySpec }) ∈ anomalyTypesList ∧
        checkAnomalies s r i =
          (some (pickAnomaly (r (i + 1))), activatedState s (pickAnomaly (r (i + 1))), i + 2) ∧
        (iterAnomalies r ((pickAnomaly (r (i + 1))).duration + 1) s i).1 =
          List.replicate ((pickAnomaly (r (i + 1))).duration + 1)
            (some (pickAnomaly (r (i + 1)))) ∧
        (iterAnomalies r ((pickAnomaly (r (i + 1))).duration + 1) s i).2.1.anomalyRemaining
          = 0) := by
  refine ⟨checkAnomalies_active_eq, checkAnomalies_idle_skip, ?_⟩
  intro s r i h0 hact hr0 hr1
  have hstep := checkAnomalies_idle_activate s r i h0 hact
  have hrem : (activatedState s (pickAnomaly (r (i + 1)))).anomalyRemaining =
      (pickAnomaly (r (i + 1))).duration := rfl
  obtain ⟨a1, a2, a3⟩ := iterAnomalies_active r ((pickAnomaly (r (i + 1))).duration)
    (activatedState s (pickAnomaly (r (i + 1)))) (i + 2) hrem
  refine ⟨pickAnomaly_mem hr0 hr1, hstep, ?_, ?_⟩
  · simp only [iterAnomalies, hstep]
    rw [a1]
    rfl
  · simp only [iterAnomalies, hstep]
    rw [a2]

/-- The random stream driving the counterexample run: the first draw
activates an anomaly, the second picks index 2 (voltageSpike, duration
1), all later draws are large so nothing else activates. -/
def counterexampleStream : ℕ → ℚ :=
  fun n => if n = 0 then 0 else if n = 1 then 1/2 else 1

/-- Witness for C2 (amended) at concrete inputs: an active anomaly
decrements without sampling and an idle tick with a large draw stays
idle. -/
theorem anomaly_state_machine_witness :
    (checkAnomalies
        (activatedState { initialSimState "household-1" "normal" with anomalyRemaining := 0 }
          { type := "outage", multiplier := some 0, duration := 5 })
        (fun _ => 1) 0 =
      (some { type := "outage", multiplier := some 0, duration := 5 },
        { activatedState { initialSimState "household-1" "normal" with anomalyRemaining := 0 }
            { type := "outage", multiplier := some 0, duration := 5 } with
          anomalyRemaining := 4 }, 0)) ∧
    (checkAnomalies (initialSimState "household-1" "normal") (fun _ => 1) 0 =
      (none, initialSimState "household-1" "normal", 1)) ∧
    (checkAnomalies (initialSimState "household-1" "normal") counterexampleStream 0 =
      (some (pickAnomaly (counterexampleStream (0 + 1))),
        activatedState (initialSimState "household-1" "normal")
          (pickAnomaly (counterexampleStream (0 + 1))), 0 + 2)) :=
  ⟨anomaly_state_machine.1 _ (fun _ => 1) 0 (by norm_num [activatedState]),
   anomaly_state_machine.2.1 _ (fun _ => 1) 0 rfl (by norm_num [anomaliesProbability]),
   (anomaly_state_machine.2.2 (initialSimState "household-1" "normal") counterexampleStream 0
      rfl (by norm_num [counterexampleStream, anomaliesProbability])
      (by norm_num [counterexampleStream]) (by norm_num [counterexampleStream])).2.1⟩

/-- The voltageSpike anomaly object, whose configured duration is 1. -/
def voltageSpikeEvent : AnomalyEvent :=
  { type := "voltageSpike", voltageMultiplier := some (13/10), duration := 1 }

/-- Counterexample to C2 as stated: the voltageSpike anomaly is
configured with duration 1, yet after its activation the simulator
returns it — and therefore scales the tick's reading — on two
consecutive ticks (the activation tick and the decrementing tick), not
on exactly one. -/
theorem anomaly_duration_counterexample :
    (iterAnomalies counterexampleStream 3 (initialSimState "household-1" "normal") 0).1 =
      [some voltageSpikeEvent, some voltageSpikeEvent, none] ∧
    voltageSpikeEvent.duration = 1 ∧
    ("voltageSpike",
      { voltageMultiplier := some ((13:ℚ)/10), duration := 1 : AnomalySpec }) ∈
      anomalyTypesList := by
  have hpick : pickAnomaly ((1:ℚ)/2) = voltageSpikeEvent := by
    simp only [pickAnomaly]
    rw [show ((anomalyTypesList.length : ℚ)) = 5 by norm_num [anomalyTypesList]]
    rw [show ⌊(1/2 : ℚ) * (5:ℚ)⌋ = 2 by norm_num [Int.floor_eq_iff]]
    rfl
  have h1 : checkAnomalies (initialSimState "household-1" "normal") counterexampleStream 0 =
      (some voltageSpikeEvent,
        activatedState (initialSimState "household-1" "normal") voltageSpikeEvent, 2) := by
    have h := checkAnomalies_idle_activate (initialSimState "household-1" "normal")
      counterexampleStream 0 rfl (by norm_num [counterexampleStream, anomaliesProbability])
    rw [show counterexampleStream (0 + 1) = 1/2 from rfl, hpick] at h
    exact h
  have h2 : checkAnomalies
      (activatedState (initialSimState "household-1" "normal") voltageSpikeEvent)
      counterexampleStream 2 =
      (some voltageSpikeEvent,
        { activatedState (initialSimState "household-1" "normal") voltageSpikeEvent with
          anomalyRemaining := 0 }, 2) := by
    exact checkAnomalies_active_eq _ counterexampleStream 2 (by norm_num [activatedState, voltageSpikeEvent])
  have h3 : checkAnomalies
      ({ activatedState (initialSimState "household-1" "normal") voltageSpikeEvent with
        anomalyRemaining := 0 })
      counterexampleStream 2 =
      (none,
        { activatedState (initialSimState "household-1" "normal") voltageSpikeEvent with
          anomalyRemaining := 0 }, 3) := by
    exact checkAnomalies_idle_skip _ counterexampleStream 2 rfl
      (by norm_num [counterexampleStream, anomaliesProbability])
  refine ⟨?_, rfl, by simp [anomalyTypesList]⟩
  simp only [iterAnomalies, h1, h2, h3]

/-- The number of random draws `generateProbabilisticLoad` consumes on
an appliance table (one per appliance passing its truthiness test). -/
def probDrawCount : List (String × Appliance) → ℕ
  | [] => 0
  | (_, a) :: rest =>
      if a.probability ≠ 0 ∧ a.alwaysOn = false ∧ a.cycle = 0 then probDrawCount rest + 1
      else probDrawCount rest

lemma startOccAux_idx (t : ℤ) (tm : ℚ) (r : ℕ → ℚ) :
    ∀ (occ : List (String × OccasionalAppliance)) (acc : List (String × ActiveAppliance)) (i : ℕ),
      (startOccAux t tm r occ acc i).2 = i + occ.length := by
  intro occ
  induction occ with
  | nil => intro acc i; rfl
  | cons oa rest ih =>
      intro acc i
      obtain ⟨name, a⟩ := oa
      simp only [startOccAux]
      rw [ih]
      simp only [List.length_cons]
      omega

lemma startOccAux_congr (t : ℤ) (tm : ℚ) (r₁ r₂ : ℕ → ℚ) :
    ∀ (occ : List (String × OccasionalAppliance)) (acc : List (String × ActiveAppliance)) (i : ℕ),
      (∀ j, i ≤ j → j < i + occ.length → r₁ j = r₂ j) →
      startOccAux t tm r₁ occ acc i = startOccAux t tm r₂ occ acc i := by
  intro occ
  induction occ with
  | nil => intro acc i _; rfl
  | cons oa rest ih =>
      intro acc i h
      obtain ⟨name, a⟩ := oa
      simp only [startOccAux]
      rw [h i le_rfl (by simp only [List.length_cons]; omega)]
      exact ih _ (i + 1) (fun j h1 h2 => h j (by omega) (by simp only [List.length_cons]; omega))

lemma probAux_idx (tm : ℚ) (r : ℕ → ℚ) :
    ∀ (l : List (String × Appliance)) (load : ℚ) (i : ℕ),
      (probAux tm r l load i).2 = i + probDrawCount l := by
  intro l
  induction l with
  | nil => intro load i; rfl
  | cons e rest ih =>
      intro load i
      obtain ⟨n, a⟩ := e
      by_cases hc : a.probability ≠ 0 ∧ a.alwaysOn = false ∧ a.cycle = 0
      · simp only [probAux, probDrawCount]
        rw [if_pos hc, if_pos hc, ih]
        omega
      · simp only [probAux, probDrawCount]
        rw [if_neg hc, if_neg hc]
        exact ih load i

lemma probAux_congr (tm : ℚ) (r₁ r₂ : ℕ → ℚ) :
    ∀ (l : List (String × Appliance)) (load : ℚ) (i : ℕ),
      (∀ j, i ≤ j → j < i + probDrawCount l → r₁ j = r₂ j) →
      probAux tm r₁ l load i = probAux tm r₂ l load i := by
  intro l
  induction l with
  | nil => intro load i _; rfl
  | cons e rest ih =>
      intro load i h
      obtain ⟨n, a⟩ := e
      by_cases hc : a.probability ≠ 0 ∧ a.alwaysOn = false ∧ a.cycle = 0
      · simp only [probAux]
        rw [if_pos hc, if_pos hc,
          h i le_rfl (by simp only [probDrawCount]; rw [if_pos hc]; omega)]
        exact ih _ (i + 1)
          (fun j h1 h2 => h j (by omega)
            (by simp only [probDrawCount]; rw [if_pos hc]; omega))
      · simp only [probAux]
        rw [if_neg hc, if_neg hc]
        exact ih load i
          (fun j h1 h2 => h j h1 (by simp only [probDrawCount]; rw [if_neg hc]; omega))

lemma checkAnomalies_congr (s : SimState) (r₁ r₂ : ℕ → ℚ) (i : ℕ)
    (h : ∀ j, i ≤ j → j < i + 2 → r₁ j = r₂ j) :
    checkAnomalies s r₁ i = checkAnomalies s r₂ i := by
  by_cases hrem : 0 < s.anomalyRemaining
  · unfold checkAnomalies
    rw [if_pos hrem, if_pos hrem]
  · unfold checkAnomalies
    rw [if_neg hrem, if_neg hrem, h i le_rfl (by omega), h (i + 1) (by omega) (by omega)]

lemma tickTotalActivePower_congr (s : SimState) (t : ℤ) (r₁ r₂ : ℕ → ℚ) (i : ℕ)
    (h : ∀ j, i ≤ j →
        j < i + occasionalAppliances.length + probDrawCount s.baseConfig.appliances + 4 →
        r₁ j = r₂ j) :
    tickTotalActivePower s t r₁ i = tickTotalActivePower s t r₂ i := by
  have hocc : startOccAux t (getTimePatternMultiplier t) r₁ occasionalAppliances
      s.activeAppliances i =
      startOccAux t (getTimePatternMultiplier t) r₂ occasionalAppliances s.activeAppliances i :=
    startOccAux_congr t (getTimePatternMultiplier t) r₁ r₂ occasionalAppliances
      s.activeAppliances i (fun j h1 h2 => h j h1 (by omega))
  have hi1 : (startOccAux t (getTimePatternMultiplier t) r₂ occasionalAppliances
      s.activeAppliances i).2 = i + occasionalAppliances.length :=
    startOccAux_idx t (getTimePatternMultiplier t) r₂ occasionalAppliances s.activeAppliances i
  have hprob : probAux (getTimePatternMultiplier t) r₁ s.baseConfig.appliances 0
      (i + occasionalAppliances.length) =
      probAux (getTimePatternMultiplier t) r₂ s.baseConfig.appliances 0
        (i + occasionalAppliances.length) :=
    probAux_congr (getTimePatternMultiplier t) r₁ r₂ s.baseConfig.appliances 0
      (i + occasionalAppliances.length) (fun j h1 h2 => h j (by omega) (by omega))
  have hi2 : (probAux (getTimePatternMultiplier t) r₂ s.baseConfig.appliances 0
      (i + occasionalAppliances.length)).2 =
      i + occasionalAppliances.length + probDrawCount s.baseConfig.appliances :=
    probAux_idx (getTimePatternMultiplier t) r₂ s.baseConfig.appliances 0
      (i + occasionalAppliances.length)
  have hnoise : r₁ (i + occasionalAppliances.length + probDrawCount s.baseConfig.appliances) =
      r₂ (i + occasionalAppliances.length + probDrawCount s.baseConfig.appliances) :=
    h _ (by omega) (by omega)
  simp only [tickTotalActivePower, startOccasionalAppliances, generateProbabilisticLoad]
  rw [hocc, hi1, hprob, hi2, hnoise]

/-- C5: the simulator tick is deterministic given the supplied random
source: two runs from the same state, timestamp and profile whose
random sources agree on all draws the tick can consume (at most
`occasionalAppliances.length + probDrawCount + 4` from the cursor)
produce identical readings, identical successor states and identical
cursor positions; no other source of nondeterminism exists. -/
theorem background_tick_deterministic (s : SimState) (t : ℤ) (i : ℕ) (r₁ r₂ : ℕ → ℚ)
    (h : ∀ j, i ≤ j →
        j < i + occasionalAppliances.length + probDrawCount s.baseConfig.appliances + 4 →
        r₁ j = r₂ j) :
    generateMeterReading s t r₁ i = generateMeterReading s t r₂ i := by
  have htick := tickTotalActivePower_congr s t r₁ r₂ i h
  have hocc : startOccAux t (getTimePatternMultiplier t) r₁ occasionalAppliances
      s.activeAppliances i =
      startOccAux t (getTimePatternMultiplier t) r₂ occasionalAppliances s.activeAppliances i :=
    startOccAux_congr t (getTimePatternMultiplier t) r₁ r₂ occasionalAppliances
      s.activeAppliances i (fun j h1 h2 => h j h1 (by omega))
  have hi1 : (startOccAux t (getTimePatternMultiplier t) r₂ occasionalAppliances
      s.activeAppliances i).2 = i + occasionalAppliances.length :=
    startOccAux_idx t (getTimePatternMultiplier t) r₂ occasionalAppliances s.activeAppliances i
  have hprob : probAux (getTimePatternMultiplier t) r₁ s.baseConfig.appliances 0
      (i + occasionalAppliances.length) =
      probAux (getTimePatternMultiplier t) r₂ s.baseConfig.appliances 0
        (i + occasionalAppliances.length) :=
    probAux_congr (getTimePatternMultiplier t) r₁ r₂ s.baseConfig.appliances 0
      (i + occasionalAppliances.length) (fun j h1 h2 => h j (by omega) (by omega))
  have hi2 : (probAux (getTimePatternMultiplier t) r₂ s.baseConfig.appliances 0
      (i + occasionalAppliances.length)).2 =
      i + occasionalAppliances.length + probDrawCount s.baseConfig.appliances :=
    probAux_idx (getTimePatternMultiplier t) r₂ s.baseConfig.appliances 0
      (i + occasionalAppliances.length)
  have hvolt : r₁ (i + occasionalAppliances.length + probDrawCount s.baseConfig.appliances + 1) =
      r₂ (i + occasionalAppliances.length + probDrawCount s.baseConfig.appliances + 1) :=
    h _ (by omega) (by omega)
  have hanom : ∀ S : SimState,
      checkAnomalies S r₁
        (i + occasionalAppliances.length + probDrawCount s.baseConfig.appliances + 2) =
      checkAnomalies S r₂
        (i + occasionalAppliances.length + probDrawCount s.baseConfig.appliances + 2) :=
    fun S => checkAnomalies_congr S r₁ r₂ _ (fun j h1 h2 => h j (by omega) (by omega))
  simp only [generateMeterReading, startOccasionalAppliances, generateProbabilisticLoad]
  rw [htick, hocc, hi1, hprob, hi2, hvolt, hanom]

/-- Witness for C5: two syntactically different random sources that
agree on the draws of one tick generate identical readings. -/
theorem background_tick_deterministic_witness :
    generateMeterReading (initialSimState "household-1" "normal") 1715731200000
        (fun _ => 1/2) 0 =
      generateMeterReading (initialSimState "household-1" "normal") 1715731200000
        (fun j => if j < 1000 then 1/2 else 0) 0 := by
  apply background_tick_deterministic
  intro j h1 h2
  have hlen : occasionalAppliances.length = 10 := rfl
  have hpc : probDrawCount (initialSimState "household-1" "normal").baseConfig.appliances = 3 := by
    norm_num [initialSimState, baseConsumption, normalConfig, probDrawCount]
  rw [hlen, hpc] at h2
  have hj : j < 1000 := by omega
  simp [hj]
